import Mathlib

/-
Verification of the TransFlix media transcription/translation/burn pipeline
(src/main.py) against its natural-language specification.

Shallow embedding notes:
- Python floats are modelled as exact rationals; the `%.3f` f-string
  formatting rounds to the nearest thousandth with ties to even, which is
  what Python float formatting does on the exact value being formatted.
- The filesystem is modelled as an association list from paths to string
  contents; external tools (ffmpeg, the vosk recognizer, argos translate)
  are modelled by their observable outcomes, passed in as parameters.
- POSIX path conventions are assumed (os.path.join inserts a slash,
  os.path.basename takes the part after the last slash).
-/

set_option autoImplicit false

/-- Decimal digit characters of a natural number, most significant first.
The first argument is recursion fuel; `n + 1` units always suffice. -/
def natDigitsAux : Nat → Nat → List Char
  | 0, _ => []
  | fuel + 1, n =>
    if n < 10 then [Nat.digitChar n]
    else natDigitsAux fuel (n / 10) ++ [Nat.digitChar (n % 10)]

/-- Decimal rendering of a natural number, as produced by str() / d-format. -/
def natRepr (n : Nat) : String := String.mk (natDigitsAux (n + 1) n)

/-- Decimal rendering of an integer, as produced by str() / d-format. -/
def intRepr (n : Int) : String :=
  if n < 0 then "-" ++ natRepr (-n).toNat else natRepr n.toNat

/-- Left zero-padding to width `w`, as done by 0-fill in Python format specs
(for the nonnegative renderings used here, where no sign is involved). -/
def pad0 (w : Nat) (s : String) : String :=
  String.mk (List.replicate (w - s.length) '0' ++ s.data)

/-- Python float mod (`a % b`): floor-based remainder, lies in `[0, b)` for `b > 0`. -/
def pymod (a b : ℚ) : ℚ := a - b * ⌊a / b⌋

/-- Round to the nearest integer with ties to even, the rounding used by
Python float formatting on the exact value being formatted. -/
def roundHalfEven (q : ℚ) : ℤ :=
  let f := ⌊q⌋
  if q - f < 1 / 2 then f
  else if q - f > 1 / 2 then f + 1
  else if f % 2 = 0 then f else f + 1

/-- Model of the f-string format `{v:06.3f}` for the nonnegative values
produced by `pymod _ 60`: round to 3 decimals, render with 3 fractional
digits, then zero-fill the whole string to width 6. -/
def pyFormat063 (v : ℚ) : String :=
  let ms : Nat := (roundHalfEven (v * 1000)).toNat
  pad0 6 (natRepr (ms / 1000) ++ "." ++ pad0 3 (natRepr (ms % 1000)))

/-- Model of Python `.replace('.', ',')`: the pattern is a single character,
so the replacement is a character-wise map. -/
def pyReplaceDotComma (s : String) : String :=
  String.mk (s.data.map fun c => if c = '.' then ',' else c)

/-- `os.path.basename`: the part of the path after the last slash. -/
def basename (p : String) : String :=
  String.mk ((p.data.reverse.takeWhile (· ≠ '/')).reverse)

/-- `os.path.join dir name` under POSIX conventions (relative `name`). -/
def pathJoin (d n : String) : String := d ++ "/" ++ n

/-- Python slice `s[:-4]`: drop the last four characters
(empty result when the string has at most four characters). -/
def pySliceDropLast4 (s : String) : String :=
  String.mk (s.data.take (s.data.length - 4))

/-- `pathlib.PurePath(p).suffix`: the final `.xyz` component of the base
name, empty when there is no dot, the only dot is leading, or the name
ends in a dot. -/
def pathSuffix (p : String) : String :=
  match (basename p).data.reverse.findIdx? (· = '.') with
  | none => ""
  | some j =>
    if 0 < (basename p).data.length - 1 - j ∧
        (basename p).data.length - 1 - j + 1 < (basename p).data.length then
      String.mk ((basename p).data.drop ((basename p).data.length - 1 - j))
    else ""

/-- `pathlib.PurePath(p).stem`: the base name with `pathSuffix` removed. -/
def pathStem (p : String) : String :=
  String.mk ((basename p).data.take ((basename p).data.length - (pathSuffix p).length))

/-- The filesystem: an association list from absolute paths to file contents. -/
def FS := List (String × String)

instance : DecidableEq FS := by unfold FS; infer_instance

/-- Content of the file at path `p`, if it exists. -/
def fsLookup : FS → String → Option String
  | [], _ => none
  | e :: rest, p => if e.1 = p then some e.2 else fsLookup rest p

/-- `os.path.exists`. -/
def fsExists (fs : FS) (p : String) : Bool := (fsLookup fs p).isSome

/-- Delete the file at path `p` (no effect when absent). -/
def fsRemove : FS → String → FS
  | [], _ => []
  | e :: rest, p => if e.1 = p then fsRemove rest p else e :: fsRemove rest p

/-- Create or overwrite the file at path `p` with content `c`. -/
def fsWrite (fs : FS) (p c : String) : FS := (p, c) :: fsRemove fs p

/-- Errors surfaced by the pipeline (Python exceptions, by kind). -/
inductive PyErr where
  | fileNotFound (path : String)
  | modelNotFound (model : String)
  | ffmpegError (msg : String)
  | other (msg : String)
deriving DecidableEq

/-- `str(e)` for a caught exception, as emitted through the error signals. -/
def errMsg : PyErr → String
  | .fileNotFound p => "No such file or directory: " ++ p
  | .modelNotFound m => "No such file or directory: " ++ m
  | .ffmpegError m => m
  | .other m => m

/-- `os.remove`: raises FileNotFoundError when the path is absent. -/
def osRemove (fs : FS) (p : String) : Except PyErr FS :=
  if fsExists fs p then .ok (fsRemove fs p) else .error (.fileNotFound p)

/-- Invocations of external tools, recorded as a trace. -/
inductive ExtCall where
  | ffmpegExtract (input output : String)
  | ffmpegBurn (input srt output : String)
deriving DecidableEq

/-- A recognized word with per-word timing and confidence
(one entry of the `result` list of a vosk recognizer Result). -/
structure Word where
  word : String
  start : ℚ
  «end» : ℚ
  conf : ℚ
deriving DecidableEq

instance : Inhabited Word := ⟨⟨"", 0, 0, 0⟩⟩

/-- What one loop iteration of `retrieve_text` observes for a chunk:
`none` when `AcceptWaveform` returns false, `some none` when it returns
true but the parsed Result lacks a `result` key, and `some (some ws)`
when it returns true with word list `ws`. -/
abbrev FrameResult := Option (Option (List Word))

/-- Timestamp formatter of `ProcessVideo._format_timestamp` (src/main.py
lines 50-54): hours and minutes by floor division, seconds by float mod,
rendered through the f-string `{hours:02d}:{minutes:02d}:{secs:06.3f}`
with the dot replaced by a comma. -/
def _format_timestamp (seconds : ℚ) : String :=
  let hours : ℤ := ⌊seconds / 3600⌋
  let minutes : ℤ := ⌊pymod seconds 3600 / 60⌋
  let secs : ℚ := pymod seconds 60
  pyReplaceDotComma
    (pad0 2 (intRepr hours) ++ ":" ++ pad0 2 (intRepr minutes) ++ ":" ++ pyFormat063 secs)

/-- One emitted subtitle cue, structured. -/
structure Cue where
  index : Nat
  start : String
  «end» : String
  text : String
deriving DecidableEq

/-- The cue built for a finalized non-empty word group (src/main.py lines
113-116): start from the first word, end from the last word, text the
space-joined words whose confidence strictly exceeds the threshold. -/
def mkCueOf (confidence : ℚ) (idx : Nat) (words : List Word) : Cue :=
  { index := idx
  , start := _format_timestamp (words.headD default).start
  , «end» := _format_timestamp (words.getLastD default).«end»
  , text := String.intercalate " " ((words.filter fun w => w.conf > confidence).map Word.word) }

/-- The string appended to `subtitles` for one cue:
the f-string at src/main.py line 116. -/
def cueString (c : Cue) : String :=
  natRepr c.index ++ "\n" ++ c.start ++ " --> " ++ c.«end» ++ "\n" ++ c.text ++ "\n"

/-- The recognition loop of `retrieve_text` (src/main.py lines 104-117)
over the per-chunk recognizer observations: cues are emitted, and the
index advanced, exactly for finalized results with a non-empty word list. -/
def retrieve_text_loop (confidence : ℚ) : Nat → List FrameResult → List Cue
  | _, [] => []
  | idx, none :: rest => retrieve_text_loop confidence idx rest
  | idx, some none :: rest => retrieve_text_loop confidence idx rest
  | idx, some (some []) :: rest => retrieve_text_loop confidence idx rest
  | idx, some (some (w :: ws)) :: rest =>
    mkCueOf confidence idx (w :: ws) :: retrieve_text_loop confidence (idx + 1) rest

/-- Default acoustic model name (src/main.py line 23). -/
def defaultModelName : String := "vosk-model-fr-0.22"

/-- The state of a `ProcessVideo` job after construction. -/
structure ProcessVideo where
  video : String
  model : String
  confidence : ℚ
  video_dir : String
  srt_path : Option String
deriving DecidableEq

/-- `ProcessVideo._video_exits` (src/main.py lines 32-38): raise
FileNotFoundError carrying the video path when it does not exist. -/
def ProcessVideo._video_exits (fs : FS) (video : String) : Except PyErr Unit :=
  if fsExists fs video then .ok () else .error (.fileNotFound video)

/-- `ProcessVideo.__init__` (src/main.py lines 23-29): store the fields,
check the video exists. No external tool is invoked, hence the empty
call trace. -/
def ProcessVideo.init (fs : FS) (video : String) (srt_path : Option String)
    (save_dir : String) (model : String := defaultModelName) :
    Except PyErr ProcessVideo × List ExtCall :=
  (match ProcessVideo._video_exits fs video with
   | .error e => .error e
   | .ok _ => .ok
      { video := video, model := model, confidence := 0.6
      , video_dir := save_dir, srt_path := srt_path }, [])

/-- Encoding passed to `open` in `_save_srt` (src/main.py line 59). -/
def save_srt_encoding : String := "utf-8"

/-- `ProcessVideo._save_srt` (src/main.py lines 57-62): write each
subtitle string followed by a newline to the derived `.srt` path and
return that path. -/
def ProcessVideo._save_srt (v : ProcessVideo) (subtitles : List String) (fs : FS) :
    FS × String :=
  let srt_file := pathJoin v.video_dir (pySliceDropLast4 (basename v.video) ++ ".srt")
  (fsWrite fs srt_file (String.join (subtitles.map (· ++ "\n"))), srt_file)

/-- `ProcessVideo._cleanup` (src/main.py lines 65-72): delete the derived
`.srt` and `.wav` paths, each guarded by an existence check. -/
def ProcessVideo._cleanup (v : ProcessVideo) (fs : FS) : FS :=
  let base_name := pySliceDropLast4 (basename v.video)
  let srt_file := pathJoin v.video_dir (base_name ++ ".srt")
  let wav_file := pathJoin v.video_dir (base_name ++ ".wav")
  let fs1 := if fsExists fs srt_file then fsRemove fs srt_file else fs
  if fsExists fs1 wav_file then fsRemove fs1 wav_file else fs1

/-- `ProcessVideo.extract_audio` (src/main.py lines 75-93): one ffmpeg
invocation producing the derived `.wav`; on ffmpeg failure the error
propagates and nothing is written. `ffmpegOk` and `wavContent` model the
external transcoder outcome. -/
def ProcessVideo.extract_audio (v : ProcessVideo) (ffmpegOk : Bool) (wavContent : String)
    (fs : FS) : Except PyErr FS × List ExtCall :=
  let output_file := pathJoin v.video_dir (pySliceDropLast4 (basename v.video) ++ ".wav")
  ( (if ffmpegOk then .ok (fsWrite fs output_file wavContent)
     else .error (.ffmpegError "ffmpeg error"))
  , [.ffmpegExtract v.video output_file] )

/-- `ProcessVideo.retrieve_text` (src/main.py lines 96-119): load the
model (external; `modelOk` models its availability), stream the derived
`.wav` through the recognizer (`frames` are the per-chunk observations;
a zero-length WAV gives the empty list), delete the `.wav`, save and
return the `.srt`. -/
def ProcessVideo.retrieve_text (v : ProcessVideo) (modelOk : Bool)
    (frames : List FrameResult) (fs : FS) : Except PyErr (FS × String) :=
  if modelOk then
    let wav_file := pathJoin v.video_dir (pySliceDropLast4 (basename v.video) ++ ".wav")
    if fsExists fs wav_file then
      let subtitles := (retrieve_text_loop v.confidence 1 frames).map cueString
      let fs1 := fsRemove fs wav_file
      .ok (ProcessVideo._save_srt v subtitles fs1)
    else .error (.fileNotFound wav_file)
  else .error (.modelNotFound v.model)

/-- `ProcessVideo.burn_subtitles` (src/main.py lines 122-136): one ffmpeg
invocation writing the output at `self.video_dir`, then `_cleanup`. On
ffmpeg failure the exception propagates before `_cleanup` runs and the
transcoder leaves no output (external-tool contract, spec section 7). -/
def ProcessVideo.burn_subtitles (v : ProcessVideo) (ffmpegOk : Bool) (outContent : String)
    (fs : FS) : Except PyErr FS × List ExtCall :=
  let srt_path := v.srt_path.getD ""
  let output_video_path := v.video_dir
  ( (if ffmpegOk then
       .ok (ProcessVideo._cleanup v (fsWrite fs output_video_path outContent))
     else .error (.ffmpegError "ffmpeg error"))
  , [.ffmpegBurn v.video srt_path output_video_path] )

/-- `MainWindow.run_processing` (src/main.py lines 240-248): construct the
job, extract audio, transcribe; any exception is caught and surfaced via
the error signal (modelled by the `Except` error case). -/
def MainWindow.run_processing (video_path save_dir : String) (extractOk modelOk : Bool)
    (wavContent : String) (frames : List FrameResult) (fs : FS) :
    Except PyErr (FS × String) :=
  match (ProcessVideo.init fs video_path none save_dir).1 with
  | .error e => .error e
  | .ok v =>
    match (ProcessVideo.extract_audio v extractOk wavContent fs).1 with
    | .error e => .error e
    | .ok fs1 => ProcessVideo.retrieve_text v modelOk frames fs1

/-- `PreviewWindow.start_burning` (src/main.py lines 424-449): translate
the edited subtitle text (modelled as the current file content, with
`tr` the external translation function), overwrite the `.srt` in place,
and compute the output path `{stem}_subtitled{suffix}` in the save
directory. Returns the filesystem and that output path. -/
def PreviewWindow.start_burning (video_path srt_path save_dir : String)
    (tr : String → String) (fs : FS) : Except PyErr (FS × String) :=
  match fsLookup fs srt_path with
  | none => .error (.fileNotFound srt_path)
  | some content =>
    let translated_srt := tr content
    let fs1 := fsWrite fs srt_path translated_srt
    let output_file := pathStem video_path ++ "_subtitled" ++ pathSuffix video_path
    let output_path := pathJoin save_dir output_file
    .ok (fs1, output_path)

/-- `PreviewWindow.run_burning` (src/main.py lines 452-462): construct a
`ProcessVideo` whose save directory is the output file path, burn, and
emit `burn_finished(output_path, None)` on success or
`burn_finished(None, str(e))` on failure. Result: the filesystem and the
two emitted signal arguments. -/
def PreviewWindow.run_burning (video_path srt_path output_path : String)
    (ffmpegOk : Bool) (outContent : String) (fs : FS) :
    FS × Option String × Option String :=
  match (ProcessVideo.init fs video_path (some srt_path) output_path).1 with
  | .error e => (fs, none, some (errMsg e))
  | .ok v =>
    match (ProcessVideo.burn_subtitles v ffmpegOk outContent fs).1 with
    | .error e => (fs, none, some (errMsg e))
    | .ok fs1 => (fs1, some output_path, none)

/-- `PreviewWindow.on_burn_finished` (src/main.py lines 480-493): show a
dialog depending on the error argument, then run
`os.remove(self.srt_path)` on both branches. Only the removal affects
the filesystem. -/
def PreviewWindow.on_burn_finished (srt_path : String) (_error : Option String)
    (fs : FS) : Except PyErr FS :=
  osRemove fs srt_path

/-- The burn stage as driven by the GUI: `run_burning` followed by the
`burn_finished` handler with the emitted arguments. Returns the final
filesystem and the emitted error, if any. -/
def PreviewWindow.burnStage (video_path srt_path output_path : String)
    (ffmpegOk : Bool) (outContent : String) (fs : FS) :
    Except PyErr (FS × Option String) :=
  let r := PreviewWindow.run_burning video_path srt_path output_path ffmpegOk outContent fs
  match PreviewWindow.on_burn_finished srt_path r.2.2 r.1 with
  | .error e => .error e
  | .ok fs2 => .ok (fs2, r.2.2)

/-- The full pipeline in GUI event order: `run_processing`, then
`start_burning`, `run_burning` and the `burn_finished` handler.
Returns the final filesystem and the output path on full success. -/
def fullPipeline (video save_dir : String) (extractOk modelOk : Bool)
    (wavContent : String) (frames : List FrameResult) (tr : String → String)
    (burnOk : Bool) (outContent : String) (fs : FS) : Except PyErr (FS × String) :=
  match MainWindow.run_processing video save_dir extractOk modelOk wavContent frames fs with
  | .error e => .error e
  | .ok (fs2, srt_path) =>
    match PreviewWindow.start_burning video srt_path save_dir tr fs2 with
    | .error e => .error e
    | .ok (fs3, output_path) =>
      let r := PreviewWindow.run_burning video srt_path output_path burnOk outContent fs3
      match PreviewWindow.on_burn_finished srt_path r.2.2 r.1 with
      | .error e => .error e
      | .ok fs5 =>
        match r.2.2 with
        | some m => .error (.other m)
        | none => .ok (fs5, output_path)

theorem fsLookup_eq_none_of_not_exists {fs : FS} {p : String} (h : fsExists fs p = false) :
    fsLookup fs p = none := by
  unfold fsExists at h
  cases ho : fsLookup fs p with
  | none => rfl
  | some c => rw [ho] at h; simp at h

theorem fsExists_eq_true_of_lookup {fs : FS} {p c : String} (h : fsLookup fs p = some c) :
    fsExists fs p = true := by
  unfold fsExists
  rw [h]
  rfl

theorem fsLookup_fsRemove (fs : FS) (p q : String) :
    fsLookup (fsRemove fs p) q = if p = q then none else fsLookup fs q := by
  induction fs with
  | nil => simp [fsRemove, fsLookup]
  | cons e rest ih =>
    simp only [fsRemove]
    by_cases h1 : e.1 = p
    · rw [if_pos h1, ih]
      by_cases h2 : p = q
      · simp [h2]
      · rw [if_neg h2, if_neg h2, fsLookup, if_neg (by rw [h1]; exact h2)]
    · rw [if_neg h1]
      by_cases h2 : p = q
      · rw [if_pos h2, fsLookup, if_neg (by rw [← h2]; exact h1), ih, if_pos h2]
      · rw [if_neg h2, fsLookup, fsLookup]
        by_cases h3 : e.1 = q
        · rw [if_pos h3, if_pos h3]
        · rw [if_neg h3, if_neg h3, ih, if_neg h2]

theorem fsRemove_eq_self {fs : FS} {p : String} (h : fsLookup fs p = none) :
    fsRemove fs p = fs := by
  induction fs with
  | nil => rfl
  | cons e rest ih =>
    rw [fsLookup] at h
    by_cases h1 : e.1 = p
    · rw [if_pos h1] at h; cases h
    · rw [if_neg h1] at h
      rw [fsRemove, if_neg h1, ih h]

theorem fsRemove_fsRemove_self (fs : FS) (p : String) :
    fsRemove (fsRemove fs p) p = fsRemove fs p :=
  fsRemove_eq_self (by rw [fsLookup_fsRemove, if_pos rfl])

theorem fsLookup_fsWrite (fs : FS) (p c q : String) :
    fsLookup (fsWrite fs p c) q = if p = q then some c else fsLookup fs q := by
  rw [fsWrite, fsLookup]
  by_cases h : p = q
  · rw [if_pos h, if_pos h]
  · rw [if_neg h, if_neg h, fsLookup_fsRemove, if_neg h]

/-- Characterization of `_cleanup`: it is exactly removal of the two
derived paths, with no other effect and no failure case. -/
theorem cleanup_eq (v : ProcessVideo) (fs : FS) :
    ProcessVideo._cleanup v fs =
      fsRemove
        (fsRemove fs (pathJoin v.video_dir (pySliceDropLast4 (basename v.video) ++ ".srt")))
        (pathJoin v.video_dir (pySliceDropLast4 (basename v.video) ++ ".wav")) := by
  simp only [ProcessVideo._cleanup]
  split_ifs with h1 h2 h2
  · rfl
  · exact (fsRemove_eq_self (fsLookup_eq_none_of_not_exists (Bool.eq_false_iff.mpr h2))).symm
  · rw [fsRemove_eq_self (fsLookup_eq_none_of_not_exists (Bool.eq_false_iff.mpr h1))]
  · rw [fsRemove_eq_self (fsLookup_eq_none_of_not_exists (Bool.eq_false_iff.mpr h1)),
      fsRemove_eq_self (fsLookup_eq_none_of_not_exists (Bool.eq_false_iff.mpr h2))]

theorem fsRemove_pair_idem (l : FS) (p q : String) :
    fsRemove (fsRemove (fsRemove (fsRemove l p) q) p) q = fsRemove (fsRemove l p) q := by
  have hS : fsLookup (fsRemove (fsRemove l p) q) p = none := by
    rw [fsLookup_fsRemove]
    by_cases h : q = p
    · rw [if_pos h]
    · rw [if_neg h, fsLookup_fsRemove, if_pos rfl]
  rw [fsRemove_eq_self hS, fsRemove_fsRemove_self]

/-- Claim C8: `_cleanup` deletes the derived `.srt` and `.wav` paths when
present, never raises (it is a total function on the filesystem), is
idempotent, and leaves the filesystem unchanged when both files are
already absent. -/
theorem c8_cleanup_idempotent :
    (∀ (v : ProcessVideo) (fs : FS),
      ProcessVideo._cleanup v fs =
        fsRemove
          (fsRemove fs (pathJoin v.video_dir (pySliceDropLast4 (basename v.video) ++ ".srt")))
          (pathJoin v.video_dir (pySliceDropLast4 (basename v.video) ++ ".wav"))) ∧
    (∀ (v : ProcessVideo) (fs : FS),
      ProcessVideo._cleanup v (ProcessVideo._cleanup v fs) = ProcessVideo._cleanup v fs) ∧
    (∀ (v : ProcessVideo) (fs : FS),
      fsLookup fs (pathJoin v.video_dir (pySliceDropLast4 (basename v.video) ++ ".srt")) = none →
      fsLookup fs (pathJoin v.video_dir (pySliceDropLast4 (basename v.video) ++ ".wav")) = none →
      ProcessVideo._cleanup v fs = fs) := by
  refine ⟨cleanup_eq, ?_, ?_⟩
  · intro v fs
    rw [cleanup_eq, cleanup_eq]
    exact fsRemove_pair_idem fs _ _
  · intro v fs h1 h2
    rw [cleanup_eq, fsRemove_eq_self h1, fsRemove_eq_self h2]

/-- Witness for C8 at a concrete job and filesystem where both derived
files are absent. -/
theorem c8_witness :
    ProcessVideo._cleanup ⟨"d/video.mp4", defaultModelName, 0.6, "d", none⟩
        [("d/video.mp4", "V")] = [("d/video.mp4", "V")] :=
  c8_cleanup_idempotent.2.2 _ _ (by decide) (by decide)

theorem string_eq_of_data {s t : String} (h : s.data = t.data) : s = t := by
  cases s; cases t; cases h; rfl

theorem string_data_append (s t : String) : (s ++ t).data = s.data ++ t.data := rfl

/-- Claim C6: constructing a job never invokes an external tool (the call
trace is empty); with a missing source video it fails at construction
with a FileNotFoundError quoting the path, and with an existing video it
succeeds, storing the fields with the default confidence threshold. -/
theorem c6_init_fails_fast :
    ∀ (fs : FS) (video : String) (srt_path : Option String) (save_dir model : String),
      (ProcessVideo.init fs video srt_path save_dir model).2 = [] ∧
      (fsExists fs video = false →
        (ProcessVideo.init fs video srt_path save_dir model).1 =
          .error (.fileNotFound video)) ∧
      (fsExists fs video = true →
        (ProcessVideo.init fs video srt_path save_dir model).1 =
          .ok ⟨video, model, 0.6, save_dir, srt_path⟩) := by
  intro fs video srt_path save_dir model
  refine ⟨rfl, ?_, ?_⟩
  · intro h
    simp [ProcessVideo.init, ProcessVideo._video_exits, h]
  · intro h
    simp [ProcessVideo.init, ProcessVideo._video_exits, h]

/-- Witness for C6: a missing video fails with the path quoted; an
existing video constructs with an empty external-call trace. -/
theorem c6_witness :
    (ProcessVideo.init [] "missing.mp4" none "out" defaultModelName).1 =
        .error (.fileNotFound "missing.mp4") ∧
    (ProcessVideo.init [("d/v.mp4", "V")] "d/v.mp4" none "out" defaultModelName).1 =
        .ok ⟨"d/v.mp4", defaultModelName, 0.6, "out", none⟩ ∧
    (ProcessVideo.init [("d/v.mp4", "V")] "d/v.mp4" none "out" defaultModelName).2 = [] :=
  ⟨(c6_init_fails_fast [] "missing.mp4" none "out" defaultModelName).2.1 (by decide),
   (c6_init_fails_fast [("d/v.mp4", "V")] "d/v.mp4" none "out" defaultModelName).2.2 (by decide),
   (c6_init_fails_fast [("d/v.mp4", "V")] "d/v.mp4" none "out" defaultModelName).1⟩

/-- Modelled from the spec: one four-line SRT block (index line,
`start --> end` timestamp line, text line, blank separator line), to
compare with what `_save_srt` actually writes. -/
def specFourLineBlock (c : Cue) : String :=
  natRepr c.index ++ "\n" ++ (c.start ++ " --> " ++ c.«end») ++ "\n" ++ c.text ++ "\n" ++ "\n"

/-- Claim C9: `_save_srt` writes the cues in order, each as a four-line
SRT block, returns the `.srt` path derived from the video base name in
the save directory, and the write uses UTF-8 encoding. -/
theorem c9_save_srt :
    ∀ (v : ProcessVideo) (cues : List Cue) (fs : FS),
      (ProcessVideo._save_srt v (cues.map cueString) fs).2 =
          pathJoin v.video_dir (pySliceDropLast4 (basename v.video) ++ ".srt") ∧
      fsLookup (ProcessVideo._save_srt v (cues.map cueString) fs).1
          (ProcessVideo._save_srt v (cues.map cueString) fs).2 =
        some (String.join (cues.map specFourLineBlock)) ∧
      save_srt_encoding = "utf-8" := by
  intro v cues fs
  refine ⟨rfl, ?_, rfl⟩
  simp only [ProcessVideo._save_srt]
  rw [fsLookup_fsWrite, if_pos rfl]
  congr 1
  rw [List.map_map]
  have hfun : ((fun s => s ++ "\n") ∘ cueString) = specFourLineBlock := by
    funext c
    apply string_eq_of_data
    simp [Function.comp, cueString, specFourLineBlock, string_data_append]
  rw [hfun]

/-- Claim C7: a zero-length WAV (no recognizer frames at all) yields the
empty cue sequence and an empty subtitle file, with no error raised. -/
theorem c7_zero_length_wav :
    ∀ (v : ProcessVideo) (fs : FS),
      fsExists fs (pathJoin v.video_dir (pySliceDropLast4 (basename v.video) ++ ".wav")) =
        true →
      retrieve_text_loop v.confidence 1 [] = [] ∧
      ProcessVideo.retrieve_text v true [] fs =
        .ok
          ( fsWrite
              (fsRemove fs
                (pathJoin v.video_dir (pySliceDropLast4 (basename v.video) ++ ".wav")))
              (pathJoin v.video_dir (pySliceDropLast4 (basename v.video) ++ ".srt")) ""
          , pathJoin v.video_dir (pySliceDropLast4 (basename v.video) ++ ".srt")) ∧
      fsLookup
          (fsWrite
            (fsRemove fs
              (pathJoin v.video_dir (pySliceDropLast4 (basename v.video) ++ ".wav")))
            (pathJoin v.video_dir (pySliceDropLast4 (basename v.video) ++ ".srt")) "")
          (pathJoin v.video_dir (pySliceDropLast4 (basename v.video) ++ ".srt")) =
        some "" := by
  intro v fs h
  refine ⟨rfl, ?_, ?_⟩
  · simp [ProcessVideo.retrieve_text, ProcessVideo._save_srt, h, retrieve_text_loop,
      String.join]
  · rw [fsLookup_fsWrite, if_pos rfl]

/-- Witness for C7 at a concrete job and a filesystem holding only the
derived WAV. -/
theorem c7_witness :
    ProcessVideo.retrieve_text ⟨"d/video.mp4", defaultModelName, 0.6, "d", none⟩ true []
        [("d/video.wav", "RIFF")] = .ok ([("d/video.srt", "")], "d/video.srt") := by
  have h := (c7_zero_length_wav ⟨"d/video.mp4", defaultModelName, 0.6, "d", none⟩
    [("d/video.wav", "RIFF")] (by decide)).2.1
  rw [h]
  rfl

/-- Claim C5: every emitted cue takes its text from some finalized
non-empty group as the space-join of exactly the words whose confidence
strictly exceeds the threshold; at threshold 0.6 and confidences
0.9, 0.5, 0.7 the text is the first and third words joined by one space. -/
theorem c5_confidence_filter :
    (∀ (c : ℚ) (evs : List FrameResult) (n : Nat) (cue : Cue),
      cue ∈ retrieve_text_loop c n evs →
      ∃ ws : List Word, some (some ws) ∈ evs ∧ ws ≠ [] ∧
        cue.text = String.intercalate " " ((ws.filter fun w => w.conf > c).map Word.word)) ∧
    (retrieve_text_loop 0.6 1
        [some (some [⟨"bonjour", 0, 1, 0.9⟩, ⟨"le", 1, 2, 0.5⟩, ⟨"monde", 2, 3, 0.7⟩])]).map
        Cue.text = ["bonjour monde"] := by
  constructor
  · intro c evs
    induction evs with
    | nil => intro n cue h; cases h
    | cons e rest ih =>
      intro n cue h
      cases e with
      | none =>
        simp only [retrieve_text_loop] at h
        obtain ⟨ws, hmem, hne, ht⟩ := ih n cue h
        exact ⟨ws, List.mem_cons_of_mem _ hmem, hne, ht⟩
      | some o =>
        cases o with
        | none =>
          simp only [retrieve_text_loop] at h
          obtain ⟨ws, hmem, hne, ht⟩ := ih n cue h
          exact ⟨ws, List.mem_cons_of_mem _ hmem, hne, ht⟩
        | some ws0 =>
          cases ws0 with
          | nil =>
            simp only [retrieve_text_loop] at h
            obtain ⟨ws, hmem, hne, ht⟩ := ih n cue h
            exact ⟨ws, List.mem_cons_of_mem _ hmem, hne, ht⟩
          | cons w wtl =>
            simp only [retrieve_text_loop] at h
            cases h with
            | head =>
              exact ⟨w :: wtl, List.mem_cons_self _ _, List.cons_ne_nil _ _, rfl⟩
            | tail _ h =>
              obtain ⟨ws, hmem, hne, ht⟩ := ih _ cue h
              exact ⟨ws, List.mem_cons_of_mem _ hmem, hne, ht⟩
  · with_unfolding_all decide

/-- Witness for C5: the general filter property applied at the concrete
three-word group of the claim. -/
theorem c5_witness :
    ∃ ws : List Word,
      some (some ws) ∈
        ([some (some [⟨"bonjour", 0, 1, 0.9⟩, ⟨"le", 1, 2, 0.5⟩, ⟨"monde", 2, 3, 0.7⟩])] :
          List FrameResult) ∧
      ws ≠ [] ∧
      (mkCueOf 0.6 1 [⟨"bonjour", 0, 1, 0.9⟩, ⟨"le", 1, 2, 0.5⟩, ⟨"monde", 2, 3, 0.7⟩]).text =
        String.intercalate " " ((ws.filter fun w => w.conf > 0.6).map Word.word) :=
  c5_confidence_filter.1 0.6 _ 1 _ (by with_unfolding_all decide)

/-- The condition under which the loop of `retrieve_text` emits a cue for
a finalized result: the word list is present and non-empty (regardless
of confidences). -/
def emittedGroup : FrameResult → Bool
  | some (some ws) => !ws.isEmpty
  | _ => false

/-- Modelled from the spec: the claimed cue count, namely the number of
finalized groups containing at least one word whose confidence strictly
exceeds the threshold. -/
def groupHasKeptWord (c : ℚ) : FrameResult → Bool
  | some (some ws) => ws.any fun w => decide (w.conf > c)
  | _ => false

theorem retrieve_text_loop_indices (c : ℚ) :
    ∀ (evs : List FrameResult) (n : Nat),
      (retrieve_text_loop c n evs).map Cue.index =
        List.range' n (evs.countP emittedGroup) := by
  intro evs
  induction evs with
  | nil => intro n; rfl
  | cons e rest ih =>
    intro n
    cases e with
    | none => simpa [retrieve_text_loop, List.countP_cons, emittedGroup] using ih n
    | some o =>
      cases o with
      | none => simpa [retrieve_text_loop, List.countP_cons, emittedGroup] using ih n
      | some ws0 =>
        cases ws0 with
        | nil => simpa [retrieve_text_loop, List.countP_cons, emittedGroup] using ih n
        | cons w wtl =>
          simp [retrieve_text_loop, List.countP_cons, emittedGroup, mkCueOf,
            List.range'_succ, ih (n + 1)]

/-- Counterexample to claim C1: a single finalized group whose only word
is at confidence 0.5, below the 0.6 threshold, still receives index 1
and emits a cue, so the emitted indices are not `1..K` for `K` = number
of groups with a word above the threshold. -/
theorem c1_counterexample :
    ¬ ((retrieve_text_loop 0.6 1 [some (some [⟨"mot", 0, 1, 0.5⟩])]).map Cue.index =
        List.range' 1
          (([some (some [⟨"mot", 0, 1, 0.5⟩])] : List FrameResult).countP
            (groupHasKeptWord 0.6))) := by
  with_unfolding_all decide

/-- Claim C1 (amended): the emitted indices are exactly `1..K` where `K`
is the number of finalized groups with a NON-EMPTY word list; groups
whose words are all at or below the threshold still consume an index and
emit a cue (with empty text), and only groups finalized with no words
consume no index, so indices are 1-based and gap-free over emitted cues. -/
theorem c1_amended :
    ∀ (c : ℚ) (evs : List FrameResult),
      (retrieve_text_loop c 1 evs).map Cue.index =
        List.range' 1 (evs.countP emittedGroup) :=
  fun c evs => retrieve_text_loop_indices c evs 1

theorem string_mk_data (l : List Char) : (String.mk l).data = l := rfl

theorem string_length_data (s : String) : s.length = s.data.length := rfl

theorem digitChar_ne_dot : ∀ d : Nat, d < 10 → Nat.digitChar d ≠ '.' := by decide

theorem natDigitsAux_not_dot (fuel : Nat) : ∀ n : Nat, '.' ∉ natDigitsAux fuel n := by
  induction fuel with
  | zero => intro n h; cases h
  | succ fuel ih =>
    intro n
    rw [natDigitsAux]
    by_cases h10 : n < 10
    · rw [if_pos h10]
      intro h
      exact digitChar_ne_dot n h10 (List.mem_singleton.mp h).symm
    · rw [if_neg h10]
      intro h
      rcases List.mem_append.mp h with h | h
      · exact ih (n / 10) h
      · exact digitChar_ne_dot (n % 10) (Nat.mod_lt _ (by norm_num))
          (List.mem_singleton.mp h).symm

theorem natDigitsAux_length_le : ∀ (fuel n k : Nat), n < 10 ^ k → 0 < k →
    (natDigitsAux fuel n).length ≤ k := by
  intro fuel
  induction fuel with
  | zero => intro n k _ hk; simp [natDigitsAux]
  | succ fuel ih =>
    intro n k hn hk
    rw [natDigitsAux]
    by_cases h10 : n < 10
    · rw [if_pos h10]
      simpa using hk
    · rw [if_neg h10]
      rw [List.length_append, List.length_singleton]
      have hkcase : k = 1 ∨ 2 ≤ k := by omega
      cases hkcase with
      | inl h1 =>
        subst h1
        rw [pow_one] at hn
        omega
      | inr h2 =>
        have hdiv : n / 10 < 10 ^ (k - 1) := by
          rw [Nat.div_lt_iff_lt_mul (by norm_num)]
          calc n < 10 ^ k := hn
            _ = 10 ^ (k - 1) * 10 := by
              conv_lhs => rw [show k = (k - 1) + 1 by omega]
              rw [pow_succ]
        have := ih (n / 10) (k - 1) hdiv (by omega)
        omega

theorem natRepr_length_le {n k : Nat} (hn : n < 10 ^ k) (hk : 0 < k) :
    (natRepr n).length ≤ k :=
  natDigitsAux_length_le (n + 1) n k hn hk

theorem pad0_length (w : Nat) (s : String) :
    (pad0 w s).length = (w - s.length) + s.length := by
  show (List.replicate (w - s.length) '0' ++ s.data).length = (w - s.length) + s.length
  rw [List.length_append, List.length_replicate]
  rfl

theorem pad0_natRepr_not_dot (w n : Nat) : '.' ∉ (pad0 w (natRepr n)).data := by
  simp only [pad0, string_mk_data]
  intro h
  rcases List.mem_append.mp h with h | h
  · exact absurd (List.eq_of_mem_replicate h) (by decide)
  · exact natDigitsAux_not_dot (n + 1) n h

theorem pad0_six_split (s t : String) (ht : t.length = 3) :
    pad0 6 (s ++ "." ++ t) = pad0 2 s ++ "." ++ t := by
  apply string_eq_of_data
  have h1 : (s ++ "." ++ t).data = s.data ++ ('.' :: t.data) := by
    rw [string_data_append, string_data_append, List.append_assoc]
    rfl
  have ht3 : t.data.length = 3 := ht
  simp only [pad0, string_mk_data, string_data_append, string_length_data, h1]
  rw [show (6 - (s.data ++ '.' :: t.data).length) = 2 - s.data.length by
    rw [List.length_append]; simp [ht3]]
  simp [List.append_assoc]

theorem map_repl_eq_self {l : List Char} (h : '.' ∉ l) :
    l.map (fun c => if c = '.' then ',' else c) = l := by
  induction l with
  | nil => rfl
  | cons c cs ih =>
    have hc : c ≠ '.' := fun hceq => h (List.mem_cons.mpr (Or.inl hceq.symm))
    rw [List.map_cons, if_neg hc, ih fun hm => h (List.mem_cons_of_mem _ hm)]

theorem map_repl_colon :
    (":").data.map (fun c => if c = '.' then ',' else c) = (":").data := by decide

theorem map_repl_dot :
    (".").data.map (fun c => if c = '.' then ',' else c) = (",").data := by decide

theorem pyReplaceDotComma_assembled (A B C D : String)
    (hA : '.' ∉ A.data) (hB : '.' ∉ B.data) (hC : '.' ∉ C.data) (hD : '.' ∉ D.data) :
    pyReplaceDotComma (A ++ ":" ++ B ++ ":" ++ C ++ "." ++ D) =
      A ++ ":" ++ B ++ ":" ++ C ++ "," ++ D := by
  apply string_eq_of_data
  simp only [pyReplaceDotComma, string_mk_data, string_data_append, List.map_append]
  rw [map_repl_eq_self hA, map_repl_eq_self hB, map_repl_eq_self hC, map_repl_eq_self hD,
    map_repl_colon, map_repl_dot]

theorem pymod_nonneg (a b : ℚ) (hb : 0 < b) : 0 ≤ pymod a b := by
  rw [pymod]
  have h1 : ((⌊a / b⌋ : ℤ) : ℚ) ≤ a / b := Int.floor_le _
  have h2 : b * ((⌊a / b⌋ : ℤ) : ℚ) ≤ b * (a / b) :=
    mul_le_mul_of_nonneg_left h1 (le_of_lt hb)
  have h3 : b * (a / b) = a := by field_simp
  linarith

theorem roundHalfEven_nonneg {q : ℚ} (h : 0 ≤ q) : 0 ≤ roundHalfEven q := by
  simp only [roundHalfEven]
  have h0 : (0 : ℤ) ≤ ⌊q⌋ := Int.floor_nonneg.mpr h
  split_ifs <;> omega

theorem format_timestamp_structure (q : ℚ) (hq : 0 ≤ q) :
    _format_timestamp q =
      pad0 2 (natRepr (⌊q / 3600⌋).toNat) ++ ":" ++
        pad0 2 (natRepr (⌊pymod q 3600 / 60⌋).toNat) ++ ":" ++
        pad0 2 (natRepr ((roundHalfEven (pymod q 60 * 1000)).toNat / 1000)) ++ "," ++
        pad0 3 (natRepr ((roundHalfEven (pymod q 60 * 1000)).toNat % 1000)) := by
  have hH : 0 ≤ ⌊q / 3600⌋ := Int.floor_nonneg.mpr (div_nonneg hq (by norm_num))
  have hM : 0 ≤ ⌊pymod q 3600 / 60⌋ :=
    Int.floor_nonneg.mpr (div_nonneg (pymod_nonneg q 3600 (by norm_num)) (by norm_num))
  have hiH : intRepr ⌊q / 3600⌋ = natRepr (⌊q / 3600⌋).toNat := by
    rw [intRepr, if_neg (by omega)]
  have hiM : intRepr ⌊pymod q 3600 / 60⌋ = natRepr (⌊pymod q 3600 / 60⌋).toNat := by
    rw [intRepr, if_neg (by omega)]
  have hmod : (roundHalfEven (pymod q 60 * 1000)).toNat % 1000 < 10 ^ 3 := by
    calc (roundHalfEven (pymod q 60 * 1000)).toNat % 1000 < 1000 :=
          Nat.mod_lt _ (by norm_num)
      _ = 10 ^ 3 := by norm_num
  have hlen :
      (pad0 3 (natRepr ((roundHalfEven (pymod q 60 * 1000)).toNat % 1000))).length = 3 := by
    rw [pad0_length]
    have := natRepr_length_le hmod (by norm_num)
    omega
  simp only [_format_timestamp, pyFormat063]
  rw [hiH, hiM, pad0_six_split _ _ hlen]
  have harg :
      pad0 2 (natRepr (⌊q / 3600⌋).toNat) ++ ":" ++
          pad0 2 (natRepr (⌊pymod q 3600 / 60⌋).toNat) ++ ":" ++
          (pad0 2 (natRepr ((roundHalfEven (pymod q 60 * 1000)).toNat / 1000)) ++ "." ++
            pad0 3 (natRepr ((roundHalfEven (pymod q 60 * 1000)).toNat % 1000))) =
        pad0 2 (natRepr (⌊q / 3600⌋).toNat) ++ ":" ++
          pad0 2 (natRepr (⌊pymod q 3600 / 60⌋).toNat) ++ ":" ++
          pad0 2 (natRepr ((roundHalfEven (pymod q 60 * 1000)).toNat / 1000)) ++ "." ++
          pad0 3 (natRepr ((roundHalfEven (pymod q 60 * 1000)).toNat % 1000)) := by
    apply string_eq_of_data
    simp [string_data_append, List.append_assoc]
  rw [harg, pyReplaceDotComma_assembled _ _ _ _ (pad0_natRepr_not_dot 2 _)
    (pad0_natRepr_not_dot 2 _) (pad0_natRepr_not_dot 2 _) (pad0_natRepr_not_dot 3 _)]

/-- Modelled from the spec: the formatter described by the claim,
identical in shape but with the millisecond field obtained by
TRUNCATION of the fractional seconds instead of rounding. -/
def specTruncFormat (seconds : ℚ) : String :=
  let hours : ℤ := ⌊seconds / 3600⌋
  let minutes : ℤ := ⌊pymod seconds 3600 / 60⌋
  let ms : Nat := (⌊pymod seconds 60 * 1000⌋).toNat
  pad0 2 (intRepr hours) ++ ":" ++ pad0 2 (intRepr minutes) ++ ":" ++
    pad0 2 (natRepr (ms / 1000)) ++ "," ++ pad0 3 (natRepr (ms % 1000))

/-- Counterexample to claim C2: at input 1.9996 the formatter rounds the
milliseconds up to the next second (output 00:00:02,000); truncation as
the claim states would give 00:00:01,999. -/
theorem c2_counterexample :
    _format_timestamp (1.9996 : ℚ) ≠ specTruncFormat (1.9996 : ℚ) ∧
    _format_timestamp (1.9996 : ℚ) = "00:00:02,000" ∧
    specTruncFormat (1.9996 : ℚ) = "00:00:01,999" := by
  refine ⟨?_, ?_, ?_⟩ <;> with_unfolding_all decide

/-- Claim C2 (amended): `format(0) = "00:00:00,000"`,
`format(3661.1234) = "01:01:01,123"`, and for every nonnegative input
the output is `HH:MM:SS,mmm` with zero-padded 2-digit hour, minute and
second fields, a comma as the sub-second separator, and the millisecond
field obtained by ROUNDING the fractional seconds to the nearest
millisecond (ties to even), not by truncation. -/
theorem c2_format_timestamp :
    _format_timestamp 0 = "00:00:00,000" ∧
    _format_timestamp (3661.1234 : ℚ) = "01:01:01,123" ∧
    ∀ q : ℚ, 0 ≤ q → _format_timestamp q =
      pad0 2 (natRepr (⌊q / 3600⌋).toNat) ++ ":" ++
        pad0 2 (natRepr (⌊pymod q 3600 / 60⌋).toNat) ++ ":" ++
        pad0 2 (natRepr ((roundHalfEven (pymod q 60 * 1000)).toNat / 1000)) ++ "," ++
        pad0 3 (natRepr ((roundHalfEven (pymod q 60 * 1000)).toNat % 1000)) :=
  ⟨by with_unfolding_all decide, by with_unfolding_all decide, format_timestamp_structure⟩

/-- Witness for C2 at input 2.5 seconds. -/
theorem c2_witness :
    _format_timestamp (2.5 : ℚ) =
      pad0 2 (natRepr (⌊(2.5 : ℚ) / 3600⌋).toNat) ++ ":" ++
        pad0 2 (natRepr (⌊pymod (2.5 : ℚ) 3600 / 60⌋).toNat) ++ ":" ++
        pad0 2 (natRepr ((roundHalfEven (pymod (2.5 : ℚ) 60 * 1000)).toNat / 1000)) ++ "," ++
        pad0 3 (natRepr ((roundHalfEven (pymod (2.5 : ℚ) 60 * 1000)).toNat % 1000)) :=
  c2_format_timestamp.2.2 (2.5 : ℚ) (by norm_num)

theorem string_mk_length (l : List Char) : (String.mk l).length = l.length := rfl

theorem pathSuffix_length_le (p : String) :
    (pathSuffix p).length ≤ (basename p).data.length := by
  unfold pathSuffix
  split
  · simp [string_mk_length]
  · split
    · rw [string_mk_length, List.length_drop]
      omega
    · simp [string_mk_length]

theorem pathSuffix_empty_or_lt (p : String) :
    (pathSuffix p).length = 0 ∨ (pathSuffix p).length < (basename p).data.length := by
  unfold pathSuffix
  split
  · left; rfl
  · split
    · rename_i hc
      right
      rw [string_mk_length, List.length_drop]
      omega
    · left; rfl

theorem derived_base_ne_stem (video : String) (h0 : 0 < (basename video).length)
    (h4 : (pathSuffix video).length ≠ 4) :
    pySliceDropLast4 (basename video) ≠ pathStem video := by
  intro heq
  have hdata := congrArg String.data heq
  simp only [pySliceDropLast4, pathStem, string_mk_data] at hdata
  have hlen := congrArg List.length hdata
  rw [List.length_take, List.length_take] at hlen
  rw [Nat.min_eq_left (Nat.sub_le _ 4), Nat.min_eq_left (Nat.sub_le _ _)] at hlen
  have hsle := pathSuffix_length_le video
  have h0d : 0 < (basename video).data.length := h0
  cases pathSuffix_empty_or_lt video with
  | inl hz => omega
  | inr hlt => omega

/-- Claim C10: all derived working-file paths strip exactly the last four
characters of the video base name; the convention is the same in
`extract_audio`, `retrieve_text`, `_save_srt` and `_cleanup`; and for
any video whose base name is non-empty and does not end in a
four-character extension, the derived base differs from the true stem
(e.g. base name "video.mpeg" gives base "video." and "video" gives "v",
while "video.mp4" gives exactly the stem "video"). -/
theorem c10_derived_paths :
    (∀ (v : ProcessVideo) (ok : Bool) (c : String) (fs : FS),
      (ProcessVideo.extract_audio v ok c fs).2 =
        [ExtCall.ffmpegExtract v.video
          (pathJoin v.video_dir (pySliceDropLast4 (basename v.video) ++ ".wav"))]) ∧
    (∀ (v : ProcessVideo) (subs : List String) (fs : FS),
      (ProcessVideo._save_srt v subs fs).2 =
        pathJoin v.video_dir (pySliceDropLast4 (basename v.video) ++ ".srt")) ∧
    (∀ (v : ProcessVideo) (frames : List FrameResult) (fs : FS),
      fsExists fs (pathJoin v.video_dir (pySliceDropLast4 (basename v.video) ++ ".wav")) =
        false →
      ProcessVideo.retrieve_text v true frames fs =
        .error (.fileNotFound
          (pathJoin v.video_dir (pySliceDropLast4 (basename v.video) ++ ".wav")))) ∧
    (∀ (v : ProcessVideo) (fs : FS),
      ProcessVideo._cleanup v fs =
        fsRemove
          (fsRemove fs (pathJoin v.video_dir (pySliceDropLast4 (basename v.video) ++ ".srt")))
          (pathJoin v.video_dir (pySliceDropLast4 (basename v.video) ++ ".wav"))) ∧
    (∀ video : String, 0 < (basename video).length → (pathSuffix video).length ≠ 4 →
      pySliceDropLast4 (basename video) ≠ pathStem video) ∧
    pySliceDropLast4 (basename "d/video.mpeg") = "video." ∧
    pathStem "d/video.mpeg" = "video" ∧
    pySliceDropLast4 (basename "d/video") = "v" ∧
    pySliceDropLast4 (basename "d/video.mp4") = "video" ∧
    pathStem "d/video.mp4" = "video" := by
  refine ⟨fun v ok c fs => rfl, fun v subs fs => rfl, ?_, cleanup_eq,
    derived_base_ne_stem, by decide, by decide, by decide, by decide, by decide⟩
  intro v frames fs h
  simp [ProcessVideo.retrieve_text, h]

/-- Witness for C10: the mangling at base name "video.mpeg", and
`retrieve_text` looking for the derived (stripped-name) WAV path. -/
theorem c10_witness :
    pySliceDropLast4 (basename "d/video.mpeg") ≠ pathStem "d/video.mpeg" ∧
    ProcessVideo.retrieve_text ⟨"d/video.mp4", defaultModelName, 0.6, "d", none⟩ true [] [] =
      .error (.fileNotFound "d/video.wav") := by
  constructor
  · exact c10_derived_paths.2.2.2.2.1 "d/video.mpeg" (by decide) (by decide)
  · have h := c10_derived_paths.2.2.1 ⟨"d/video.mp4", defaultModelName, 0.6, "d", none⟩ [] []
      (by decide)
    rw [h]
    rfl

theorem fsExists_fsWrite (fs : FS) (p c q : String) :
    fsExists (fsWrite fs p c) q = if p = q then true else fsExists fs q := by
  unfold fsExists
  rw [fsLookup_fsWrite]
  by_cases h : p = q
  · rw [if_pos h, if_pos h]; rfl
  · rw [if_neg h, if_neg h]

theorem fsExists_fsRemove (fs : FS) (p q : String) :
    fsExists (fsRemove fs p) q = if p = q then false else fsExists fs q := by
  unfold fsExists
  rw [fsLookup_fsRemove]
  by_cases h : p = q
  · rw [if_pos h, if_pos h]; rfl
  · rw [if_neg h, if_neg h]

theorem fsRemove_fsWrite_same (fs : FS) (p c : String) :
    fsRemove (fsWrite fs p c) p = fsRemove fs p := by
  rw [fsWrite, fsRemove, if_pos rfl, fsRemove_fsRemove_self]

/-- Claim C3 (amended): when the burn transcode fails,
`burn_subtitles` raises before `_cleanup` runs, so the working `.srt`
still exists and no output file was created when the failure is emitted
(`run_burning` leaves the filesystem untouched); but the GUI handler
`on_burn_finished` then unconditionally removes the `.srt`, so after the
failure is fully handled the working `.srt` no longer exists. -/
theorem c3_burn_failure (video srt_path output_path outContent s0 : String) (fs : FS)
    (hv : fsExists fs video = true)
    (hs : fsLookup fs srt_path = some s0)
    (ho : fsLookup fs output_path = none) :
    (ProcessVideo.burn_subtitles
        ⟨video, defaultModelName, 0.6, output_path, some srt_path⟩
        false outContent fs).1 = .error (.ffmpegError "ffmpeg error") ∧
    PreviewWindow.run_burning video srt_path output_path false outContent fs =
      (fs, none, some "ffmpeg error") ∧
    fsLookup fs srt_path = some s0 ∧
    fsLookup fs output_path = none ∧
    PreviewWindow.burnStage video srt_path output_path false outContent fs =
      .ok (fsRemove fs srt_path, some "ffmpeg error") ∧
    fsLookup (fsRemove fs srt_path) srt_path = none := by
  have h2 : PreviewWindow.run_burning video srt_path output_path false outContent fs =
      (fs, none, some "ffmpeg error") := by
    simp [PreviewWindow.run_burning, ProcessVideo.init, ProcessVideo._video_exits, hv,
      ProcessVideo.burn_subtitles, errMsg]
  refine ⟨rfl, h2, hs, ho, ?_, by rw [fsLookup_fsRemove, if_pos rfl]⟩
  simp [PreviewWindow.burnStage, h2, PreviewWindow.on_burn_finished, osRemove,
    fsExists_eq_true_of_lookup hs]

/-- Counterexample to claim C3: at a concrete failed burn, after the
failure is handled (`run_burning` followed by `on_burn_finished`) the
working `.srt` no longer exists on disk, contrary to the claim. -/
theorem c3_counterexample :
    (PreviewWindow.burnStage "save/video.mp4" "save/video.srt" "save/video_subtitled.mp4"
        false "out" [("save/video.mp4", "V"), ("save/video.srt", "S")]).map
        (fun r => (fsLookup r.1 "save/video.srt", fsLookup r.1 "save/video_subtitled.mp4")) =
      .ok (none, none) := by
  rfl

/-- Witness for C3 at a concrete failed burn. -/
theorem c3_witness :
    PreviewWindow.burnStage "d/v.mp4" "d/v.srt" "d/v_subtitled.mp4" false "out"
        [("d/v.mp4", "V"), ("d/v.srt", "S")] =
      .ok (fsRemove [("d/v.mp4", "V"), ("d/v.srt", "S")] "d/v.srt", some "ffmpeg error") :=
  (c3_burn_failure "d/v.mp4" "d/v.srt" "d/v_subtitled.mp4" "out" "S"
    [("d/v.mp4", "V"), ("d/v.srt", "S")] (by decide) (by decide) (by decide)).2.2.2.2.1

/-- Side conditions for a normal pipeline run: the source video exists
and the derived working paths, the output path, and the (output-relative)
paths `_cleanup` computes during the burn do not collide. Decidable, so
concrete runs discharge it by evaluation. -/
abbrev pipelinePathsOk (video save_dir : String) (fs : FS) : Prop :=
  fsExists fs video = true ∧
  video ≠ (pathJoin save_dir (pySliceDropLast4 (basename video) ++ ".wav")) ∧
  (pathJoin save_dir (pySliceDropLast4 (basename video) ++ ".wav")) ≠ (pathJoin save_dir (pySliceDropLast4 (basename video) ++ ".srt")) ∧
  (pathJoin save_dir (pathStem video ++ "_subtitled" ++ pathSuffix video)) ≠ (pathJoin save_dir (pySliceDropLast4 (basename video) ++ ".srt")) ∧
  (pathJoin save_dir (pathStem video ++ "_subtitled" ++ pathSuffix video)) ≠ (pathJoin save_dir (pySliceDropLast4 (basename video) ++ ".wav")) ∧
  fsLookup fs (pathJoin (pathJoin save_dir (pathStem video ++ "_subtitled" ++ pathSuffix video)) (pySliceDropLast4 (basename video) ++ ".srt")) = none ∧
  fsLookup fs (pathJoin (pathJoin save_dir (pathStem video ++ "_subtitled" ++ pathSuffix video)) (pySliceDropLast4 (basename video) ++ ".wav")) = none ∧
  (pathJoin (pathJoin save_dir (pathStem video ++ "_subtitled" ++ pathSuffix video)) (pySliceDropLast4 (basename video) ++ ".srt")) ≠ (pathJoin save_dir (pySliceDropLast4 (basename video) ++ ".srt")) ∧
  (pathJoin (pathJoin save_dir (pathStem video ++ "_subtitled" ++ pathSuffix video)) (pySliceDropLast4 (basename video) ++ ".srt")) ≠ (pathJoin save_dir (pathStem video ++ "_subtitled" ++ pathSuffix video)) ∧
  (pathJoin (pathJoin save_dir (pathStem video ++ "_subtitled" ++ pathSuffix video)) (pySliceDropLast4 (basename video) ++ ".wav")) ≠ (pathJoin save_dir (pySliceDropLast4 (basename video) ++ ".srt")) ∧
  (pathJoin (pathJoin save_dir (pathStem video ++ "_subtitled" ++ pathSuffix video)) (pySliceDropLast4 (basename video) ++ ".wav")) ≠ (pathJoin save_dir (pathStem video ++ "_subtitled" ++ pathSuffix video))

/-- Claim C4 (amended): after a successful full run the derived `.wav`
and `.srt` working files no longer exist and the output
`{stem}_subtitled{ext}` file holds the burned content; however the two
cleanup code paths are NOT consistent: during the burn, `_cleanup` joins
its derived paths against the output file path (the job is constructed
with `save_dir` bound to the output path) and therefore deletes nothing,
while the working `.srt` is actually removed by the GUI handler
`on_burn_finished` and the `.wav` was already removed inside
`retrieve_text`. -/
theorem c4_pipeline_cleanup (video save_dir wavContent outContent : String)
    (tr : String → String) (frames : List FrameResult) (fs : FS)
    (h : pipelinePathsOk video save_dir fs) :
    (∃ fs5 : FS,
      fullPipeline video save_dir true true wavContent frames tr true outContent fs =
        .ok (fs5, (pathJoin save_dir (pathStem video ++ "_subtitled" ++ pathSuffix video))) ∧
      fsLookup fs5 (pathJoin save_dir (pySliceDropLast4 (basename video) ++ ".wav")) = none ∧
      fsLookup fs5 (pathJoin save_dir (pySliceDropLast4 (basename video) ++ ".srt")) = none ∧
      fsLookup fs5 (pathJoin save_dir (pathStem video ++ "_subtitled" ++ pathSuffix video)) = some outContent) ∧
    (∀ g : FS,
      fsLookup g (pathJoin (pathJoin save_dir (pathStem video ++ "_subtitled" ++ pathSuffix video)) (pySliceDropLast4 (basename video) ++ ".srt")) = none →
      fsLookup g (pathJoin (pathJoin save_dir (pathStem video ++ "_subtitled" ++ pathSuffix video)) (pySliceDropLast4 (basename video) ++ ".wav")) = none →
      ProcessVideo._cleanup (⟨video, defaultModelName, 0.6, (pathJoin save_dir (pathStem video ++ "_subtitled" ++ pathSuffix video)), some (pathJoin save_dir (pySliceDropLast4 (basename video) ++ ".srt"))⟩ : ProcessVideo) g = g) := by
  obtain ⟨hv, hvw, hws, hos, how, hcs, hcw, hcss, hcso, hcws, hcwo⟩ := h
  have hA : MainWindow.run_processing video save_dir true true wavContent frames fs =
      .ok ((fsWrite (fsRemove fs (pathJoin save_dir (pySliceDropLast4 (basename video) ++ ".wav"))) (pathJoin save_dir (pySliceDropLast4 (basename video) ++ ".srt")) (String.join (List.map ((fun s => s ++ "\n") ∘ cueString) (retrieve_text_loop 0.6 1 frames)))), (pathJoin save_dir (pySliceDropLast4 (basename video) ++ ".srt"))) := by
    simp [MainWindow.run_processing, ProcessVideo.init, ProcessVideo._video_exits, hv,
      ProcessVideo.extract_audio, ProcessVideo.retrieve_text, ProcessVideo._save_srt,
      fsExists_fsWrite, fsRemove_fsWrite_same]
  have hB : PreviewWindow.start_burning video (pathJoin save_dir (pySliceDropLast4 (basename video) ++ ".srt")) save_dir tr (fsWrite (fsRemove fs (pathJoin save_dir (pySliceDropLast4 (basename video) ++ ".wav"))) (pathJoin save_dir (pySliceDropLast4 (basename video) ++ ".srt")) (String.join (List.map ((fun s => s ++ "\n") ∘ cueString) (retrieve_text_loop 0.6 1 frames)))) =
      .ok ((fsWrite (fsWrite (fsRemove fs (pathJoin save_dir (pySliceDropLast4 (basename video) ++ ".wav"))) (pathJoin save_dir (pySliceDropLast4 (basename video) ++ ".srt")) (String.join (List.map ((fun s => s ++ "\n") ∘ cueString) (retrieve_text_loop 0.6 1 frames)))) (pathJoin save_dir (pySliceDropLast4 (basename video) ++ ".srt")) (tr (String.join (List.map ((fun s => s ++ "\n") ∘ cueString) (retrieve_text_loop 0.6 1 frames))))), (pathJoin save_dir (pathStem video ++ "_subtitled" ++ pathSuffix video))) := by
    simp [PreviewWindow.start_burning, fsLookup_fsWrite]
  have hv3 : fsExists (fsWrite (fsWrite (fsRemove fs (pathJoin save_dir (pySliceDropLast4 (basename video) ++ ".wav"))) (pathJoin save_dir (pySliceDropLast4 (basename video) ++ ".srt")) (String.join (List.map ((fun s => s ++ "\n") ∘ cueString) (retrieve_text_loop 0.6 1 frames)))) (pathJoin save_dir (pySliceDropLast4 (basename video) ++ ".srt")) (tr (String.join (List.map ((fun s => s ++ "\n") ∘ cueString) (retrieve_text_loop 0.6 1 frames))))) video = true := by
    rw [fsExists_fsWrite]
    by_cases hsv : (pathJoin save_dir (pySliceDropLast4 (basename video) ++ ".srt")) = video
    · rw [if_pos hsv]
    · rw [if_neg hsv, fsExists_fsWrite, if_neg hsv, fsExists_fsRemove,
        if_neg (fun hh => hvw hh.symm), hv]
  have hcleanS : fsLookup (fsWrite (fsWrite (fsWrite (fsRemove fs (pathJoin save_dir (pySliceDropLast4 (basename video) ++ ".wav"))) (pathJoin save_dir (pySliceDropLast4 (basename video) ++ ".srt")) (String.join (List.map ((fun s => s ++ "\n") ∘ cueString) (retrieve_text_loop 0.6 1 frames)))) (pathJoin save_dir (pySliceDropLast4 (basename video) ++ ".srt")) (tr (String.join (List.map ((fun s => s ++ "\n") ∘ cueString) (retrieve_text_loop 0.6 1 frames))))) (pathJoin save_dir (pathStem video ++ "_subtitled" ++ pathSuffix video)) outContent) (pathJoin (pathJoin save_dir (pathStem video ++ "_subtitled" ++ pathSuffix video)) (pySliceDropLast4 (basename video) ++ ".srt")) = none := by
    rw [fsLookup_fsWrite, if_neg (fun hh => hcso hh.symm), fsLookup_fsWrite,
      if_neg (fun hh => hcss hh.symm), fsLookup_fsWrite, if_neg (fun hh => hcss hh.symm),
      fsLookup_fsRemove]
    by_cases hwc : (pathJoin save_dir (pySliceDropLast4 (basename video) ++ ".wav")) = (pathJoin (pathJoin save_dir (pathStem video ++ "_subtitled" ++ pathSuffix video)) (pySliceDropLast4 (basename video) ++ ".srt"))
    · rw [if_pos hwc]
    · rw [if_neg hwc]
      exact hcs
  have hcleanW : fsLookup (fsWrite (fsWrite (fsWrite (fsRemove fs (pathJoin save_dir (pySliceDropLast4 (basename video) ++ ".wav"))) (pathJoin save_dir (pySliceDropLast4 (basename video) ++ ".srt")) (String.join (List.map ((fun s => s ++ "\n") ∘ cueString) (retrieve_text_loop 0.6 1 frames)))) (pathJoin save_dir (pySliceDropLast4 (basename video) ++ ".srt")) (tr (String.join (List.map ((fun s => s ++ "\n") ∘ cueString) (retrieve_text_loop 0.6 1 frames))))) (pathJoin save_dir (pathStem video ++ "_subtitled" ++ pathSuffix video)) outContent) (pathJoin (pathJoin save_dir (pathStem video ++ "_subtitled" ++ pathSuffix video)) (pySliceDropLast4 (basename video) ++ ".wav")) = none := by
    rw [fsLookup_fsWrite, if_neg (fun hh => hcwo hh.symm), fsLookup_fsWrite,
      if_neg (fun hh => hcws hh.symm), fsLookup_fsWrite, if_neg (fun hh => hcws hh.symm),
      fsLookup_fsRemove]
    by_cases hwc : (pathJoin save_dir (pySliceDropLast4 (basename video) ++ ".wav")) = (pathJoin (pathJoin save_dir (pathStem video ++ "_subtitled" ++ pathSuffix video)) (pySliceDropLast4 (basename video) ++ ".wav"))
    · rw [if_pos hwc]
    · rw [if_neg hwc]
      exact hcw
  have hclean : ProcessVideo._cleanup (⟨video, defaultModelName, 0.6, (pathJoin save_dir (pathStem video ++ "_subtitled" ++ pathSuffix video)), some (pathJoin save_dir (pySliceDropLast4 (basename video) ++ ".srt"))⟩ : ProcessVideo) (fsWrite (fsWrite (fsWrite (fsRemove fs (pathJoin save_dir (pySliceDropLast4 (basename video) ++ ".wav"))) (pathJoin save_dir (pySliceDropLast4 (basename video) ++ ".srt")) (String.join (List.map ((fun s => s ++ "\n") ∘ cueString) (retrieve_text_loop 0.6 1 frames)))) (pathJoin save_dir (pySliceDropLast4 (basename video) ++ ".srt")) (tr (String.join (List.map ((fun s => s ++ "\n") ∘ cueString) (retrieve_text_loop 0.6 1 frames))))) (pathJoin save_dir (pathStem video ++ "_subtitled" ++ pathSuffix video)) outContent) = (fsWrite (fsWrite (fsWrite (fsRemove fs (pathJoin save_dir (pySliceDropLast4 (basename video) ++ ".wav"))) (pathJoin save_dir (pySliceDropLast4 (basename video) ++ ".srt")) (String.join (List.map ((fun s => s ++ "\n") ∘ cueString) (retrieve_text_loop 0.6 1 frames)))) (pathJoin save_dir (pySliceDropLast4 (basename video) ++ ".srt")) (tr (String.join (List.map ((fun s => s ++ "\n") ∘ cueString) (retrieve_text_loop 0.6 1 frames))))) (pathJoin save_dir (pathStem video ++ "_subtitled" ++ pathSuffix video)) outContent) :=
    calc ProcessVideo._cleanup (⟨video, defaultModelName, 0.6, (pathJoin save_dir (pathStem video ++ "_subtitled" ++ pathSuffix video)), some (pathJoin save_dir (pySliceDropLast4 (basename video) ++ ".srt"))⟩ : ProcessVideo) (fsWrite (fsWrite (fsWrite (fsRemove fs (pathJoin save_dir (pySliceDropLast4 (basename video) ++ ".wav"))) (pathJoin save_dir (pySliceDropLast4 (basename video) ++ ".srt")) (String.join (List.map ((fun s => s ++ "\n") ∘ cueString) (retrieve_text_loop 0.6 1 frames)))) (pathJoin save_dir (pySliceDropLast4 (basename video) ++ ".srt")) (tr (String.join (List.map ((fun s => s ++ "\n") ∘ cueString) (retrieve_text_loop 0.6 1 frames))))) (pathJoin save_dir (pathStem video ++ "_subtitled" ++ pathSuffix video)) outContent)
        = fsRemove (fsRemove (fsWrite (fsWrite (fsWrite (fsRemove fs (pathJoin save_dir (pySliceDropLast4 (basename video) ++ ".wav"))) (pathJoin save_dir (pySliceDropLast4 (basename video) ++ ".srt")) (String.join (List.map ((fun s => s ++ "\n") ∘ cueString) (retrieve_text_loop 0.6 1 frames)))) (pathJoin save_dir (pySliceDropLast4 (basename video) ++ ".srt")) (tr (String.join (List.map ((fun s => s ++ "\n") ∘ cueString) (retrieve_text_loop 0.6 1 frames))))) (pathJoin save_dir (pathStem video ++ "_subtitled" ++ pathSuffix video)) outContent) (pathJoin (pathJoin save_dir (pathStem video ++ "_subtitled" ++ pathSuffix video)) (pySliceDropLast4 (basename video) ++ ".srt"))) (pathJoin (pathJoin save_dir (pathStem video ++ "_subtitled" ++ pathSuffix video)) (pySliceDropLast4 (basename video) ++ ".wav")) := cleanup_eq _ _
      _ = (fsWrite (fsWrite (fsWrite (fsRemove fs (pathJoin save_dir (pySliceDropLast4 (basename video) ++ ".wav"))) (pathJoin save_dir (pySliceDropLast4 (basename video) ++ ".srt")) (String.join (List.map ((fun s => s ++ "\n") ∘ cueString) (retrieve_text_loop 0.6 1 frames)))) (pathJoin save_dir (pySliceDropLast4 (basename video) ++ ".srt")) (tr (String.join (List.map ((fun s => s ++ "\n") ∘ cueString) (retrieve_text_loop 0.6 1 frames))))) (pathJoin save_dir (pathStem video ++ "_subtitled" ++ pathSuffix video)) outContent) := by rw [fsRemove_eq_self hcleanS, fsRemove_eq_self hcleanW]
  have hC : PreviewWindow.run_burning video (pathJoin save_dir (pySliceDropLast4 (basename video) ++ ".srt")) (pathJoin save_dir (pathStem video ++ "_subtitled" ++ pathSuffix video)) true outContent (fsWrite (fsWrite (fsRemove fs (pathJoin save_dir (pySliceDropLast4 (basename video) ++ ".wav"))) (pathJoin save_dir (pySliceDropLast4 (basename video) ++ ".srt")) (String.join (List.map ((fun s => s ++ "\n") ∘ cueString) (retrieve_text_loop 0.6 1 frames)))) (pathJoin save_dir (pySliceDropLast4 (basename video) ++ ".srt")) (tr (String.join (List.map ((fun s => s ++ "\n") ∘ cueString) (retrieve_text_loop 0.6 1 frames))))) =
      ((fsWrite (fsWrite (fsWrite (fsRemove fs (pathJoin save_dir (pySliceDropLast4 (basename video) ++ ".wav"))) (pathJoin save_dir (pySliceDropLast4 (basename video) ++ ".srt")) (String.join (List.map ((fun s => s ++ "\n") ∘ cueString) (retrieve_text_loop 0.6 1 frames)))) (pathJoin save_dir (pySliceDropLast4 (basename video) ++ ".srt")) (tr (String.join (List.map ((fun s => s ++ "\n") ∘ cueString) (retrieve_text_loop 0.6 1 frames))))) (pathJoin save_dir (pathStem video ++ "_subtitled" ++ pathSuffix video)) outContent), some (pathJoin save_dir (pathStem video ++ "_subtitled" ++ pathSuffix video)), none) := by
    simp [PreviewWindow.run_burning, ProcessVideo.init, ProcessVideo._video_exits, hv3,
      ProcessVideo.burn_subtitles, hclean]
  have hex4 : fsExists (fsWrite (fsWrite (fsWrite (fsRemove fs (pathJoin save_dir (pySliceDropLast4 (basename video) ++ ".wav"))) (pathJoin save_dir (pySliceDropLast4 (basename video) ++ ".srt")) (String.join (List.map ((fun s => s ++ "\n") ∘ cueString) (retrieve_text_loop 0.6 1 frames)))) (pathJoin save_dir (pySliceDropLast4 (basename video) ++ ".srt")) (tr (String.join (List.map ((fun s => s ++ "\n") ∘ cueString) (retrieve_text_loop 0.6 1 frames))))) (pathJoin save_dir (pathStem video ++ "_subtitled" ++ pathSuffix video)) outContent) (pathJoin save_dir (pySliceDropLast4 (basename video) ++ ".srt")) = true := by
    rw [fsExists_fsWrite, if_neg (fun hh => hos hh), fsExists_fsWrite, if_pos rfl]
  have hD : PreviewWindow.on_burn_finished (pathJoin save_dir (pySliceDropLast4 (basename video) ++ ".srt")) none (fsWrite (fsWrite (fsWrite (fsRemove fs (pathJoin save_dir (pySliceDropLast4 (basename video) ++ ".wav"))) (pathJoin save_dir (pySliceDropLast4 (basename video) ++ ".srt")) (String.join (List.map ((fun s => s ++ "\n") ∘ cueString) (retrieve_text_loop 0.6 1 frames)))) (pathJoin save_dir (pySliceDropLast4 (basename video) ++ ".srt")) (tr (String.join (List.map ((fun s => s ++ "\n") ∘ cueString) (retrieve_text_loop 0.6 1 frames))))) (pathJoin save_dir (pathStem video ++ "_subtitled" ++ pathSuffix video)) outContent) = .ok (fsRemove (fsWrite (fsWrite (fsWrite (fsRemove fs (pathJoin save_dir (pySliceDropLast4 (basename video) ++ ".wav"))) (pathJoin save_dir (pySliceDropLast4 (basename video) ++ ".srt")) (String.join (List.map ((fun s => s ++ "\n") ∘ cueString) (retrieve_text_loop 0.6 1 frames)))) (pathJoin save_dir (pySliceDropLast4 (basename video) ++ ".srt")) (tr (String.join (List.map ((fun s => s ++ "\n") ∘ cueString) (retrieve_text_loop 0.6 1 frames))))) (pathJoin save_dir (pathStem video ++ "_subtitled" ++ pathSuffix video)) outContent) (pathJoin save_dir (pySliceDropLast4 (basename video) ++ ".srt"))) := by
    simp only [PreviewWindow.on_burn_finished, osRemove, hex4]
    rfl
  refine ⟨⟨(fsRemove (fsWrite (fsWrite (fsWrite (fsRemove fs (pathJoin save_dir (pySliceDropLast4 (basename video) ++ ".wav"))) (pathJoin save_dir (pySliceDropLast4 (basename video) ++ ".srt")) (String.join (List.map ((fun s => s ++ "\n") ∘ cueString) (retrieve_text_loop 0.6 1 frames)))) (pathJoin save_dir (pySliceDropLast4 (basename video) ++ ".srt")) (tr (String.join (List.map ((fun s => s ++ "\n") ∘ cueString) (retrieve_text_loop 0.6 1 frames))))) (pathJoin save_dir (pathStem video ++ "_subtitled" ++ pathSuffix video)) outContent) (pathJoin save_dir (pySliceDropLast4 (basename video) ++ ".srt"))), ?_, ?_, ?_, ?_⟩, ?_⟩
  · simp only [fullPipeline, hA, hB, hC, hD]
  · rw [fsLookup_fsRemove, if_neg (fun hh => hws hh.symm), fsLookup_fsWrite,
      if_neg (fun hh => how hh), fsLookup_fsWrite, if_neg (fun hh => hws hh.symm),
      fsLookup_fsWrite, if_neg (fun hh => hws hh.symm), fsLookup_fsRemove, if_pos rfl]
  · rw [fsLookup_fsRemove, if_pos rfl]
  · rw [fsLookup_fsRemove, if_neg (fun hh => hos hh.symm), fsLookup_fsWrite, if_pos rfl]
  · intro g hg1 hg2
    calc ProcessVideo._cleanup (⟨video, defaultModelName, 0.6, (pathJoin save_dir (pathStem video ++ "_subtitled" ++ pathSuffix video)), some (pathJoin save_dir (pySliceDropLast4 (basename video) ++ ".srt"))⟩ : ProcessVideo) g
        = fsRemove (fsRemove g (pathJoin (pathJoin save_dir (pathStem video ++ "_subtitled" ++ pathSuffix video)) (pySliceDropLast4 (basename video) ++ ".srt"))) (pathJoin (pathJoin save_dir (pathStem video ++ "_subtitled" ++ pathSuffix video)) (pySliceDropLast4 (basename video) ++ ".wav")) := cleanup_eq _ _
      _ = g := by rw [fsRemove_eq_self hg1, fsRemove_eq_self hg2]

/-- Counterexample to claim C4: in the burn flow the job is constructed
with its save directory bound to the output FILE path, so `_cleanup`
computes its derived paths underneath the output file path and deletes
neither working file although both exist, while the `burn_finished`
handler removes the working `.srt` directly: the two cleanup code paths
do not delete the same derived paths. -/
theorem c4_counterexample :
    ProcessVideo._cleanup
        ⟨"save/video.mp4", defaultModelName, 0.6, "save/video_subtitled.mp4",
          some "save/video.srt"⟩
        [("save/video.srt", "S"), ("save/video.wav", "W")] =
      [("save/video.srt", "S"), ("save/video.wav", "W")] ∧
    PreviewWindow.on_burn_finished "save/video.srt" none
        [("save/video.srt", "S"), ("save/video.wav", "W")] =
      .ok [("save/video.wav", "W")] ∧
    pathJoin "save/video_subtitled.mp4"
        (pySliceDropLast4 (basename "save/video.mp4") ++ ".srt") ≠
      pathJoin "save" (pySliceDropLast4 (basename "save/video.mp4") ++ ".srt") := by
  refine ⟨rfl, rfl, by decide⟩

/-- Witness for C4 at a concrete full successful run. -/
theorem c4_witness :
    (∃ fs5 : FS,
      fullPipeline "d/video.mp4" "d" true true "w" [] id true "out"
          [("d/video.mp4", "V")] = .ok (fs5, (pathJoin "d" (pathStem "d/video.mp4" ++ "_subtitled" ++ pathSuffix "d/video.mp4"))) ∧
      fsLookup fs5 (pathJoin "d" (pySliceDropLast4 (basename "d/video.mp4") ++ ".wav")) = none ∧
      fsLookup fs5 (pathJoin "d" (pySliceDropLast4 (basename "d/video.mp4") ++ ".srt")) = none ∧
      fsLookup fs5 (pathJoin "d" (pathStem "d/video.mp4" ++ "_subtitled" ++ pathSuffix "d/video.mp4")) = some "out") ∧
    (∀ g : FS,
      fsLookup g (pathJoin (pathJoin "d" (pathStem "d/video.mp4" ++ "_subtitled" ++ pathSuffix "d/video.mp4")) (pySliceDropLast4 (basename "d/video.mp4") ++ ".srt")) = none →
      fsLookup g (pathJoin (pathJoin "d" (pathStem "d/video.mp4" ++ "_subtitled" ++ pathSuffix "d/video.mp4")) (pySliceDropLast4 (basename "d/video.mp4") ++ ".wav")) = none →
      ProcessVideo._cleanup (⟨"d/video.mp4", defaultModelName, 0.6, (pathJoin "d" (pathStem "d/video.mp4" ++ "_subtitled" ++ pathSuffix "d/video.mp4")), some (pathJoin "d" (pySliceDropLast4 (basename "d/video.mp4") ++ ".srt"))⟩ : ProcessVideo) g = g) :=
  c4_pipeline_cleanup "d/video.mp4" "d" "w" "out" id [] [("d/video.mp4", "V")] (by decide)
